import Mathlib

/-!
Shallow embedding of the task/debug configuration resolution engine of
vscode-docker: `TaskHelper.ts`, `DockerBuildTaskProvider.ts` (build and run
task providers) and `DockerDebugConfigurationProvider.ts`.

Optional / possibly-`undefined` TypeScript fields are modelled as `Option`;
JavaScript truthiness on strings (`""` is falsy) and booleans (`undefined`
is falsy) is made explicit at each use site, following the source.
-/

namespace VsDocker

/-! ## Image name sanitization (`TaskHelper.ts`, `getValidImageName`) -/

/-- The character class kept by the source replace `/[^a-z0-9]/gi`: the
case-insensitive class without the unicode flag matches exactly the ASCII
letters and digits, so the replace deletes every character outside
`a-z`, `A-Z`, `0-9`. -/
def imageNameChars : List Char :=
  "abcdefghijklmnopqrstuvwxyzABCDEFGHIJKLMNOPQRSTUVWXYZ0123456789".data

def isImageNameChar (c : Char) : Bool := imageNameChars.contains c

/-- JavaScript `String.prototype.toLowerCase`, on the characters that can
survive the filter above (ASCII letters and digits): only the ASCII
uppercase letters change, each to its lowercase counterpart. -/
def jsToLowerChar (c : Char) : Char :=
  match c with
  | 'A' => 'a'
  | 'B' => 'b'
  | 'C' => 'c'
  | 'D' => 'd'
  | 'E' => 'e'
  | 'F' => 'f'
  | 'G' => 'g'
  | 'H' => 'h'
  | 'I' => 'i'
  | 'J' => 'j'
  | 'K' => 'k'
  | 'L' => 'l'
  | 'M' => 'm'
  | 'N' => 'n'
  | 'O' => 'o'
  | 'P' => 'p'
  | 'Q' => 'q'
  | 'R' => 'r'
  | 'S' => 's'
  | 'T' => 't'
  | 'U' => 'u'
  | 'V' => 'v'
  | 'W' => 'w'
  | 'X' => 'x'
  | 'Y' => 'y'
  | 'Z' => 'z'
  | c => c

/-- The `tag` parameter type of the source: `'dev' | 'latest'`. -/
inductive ImageTag
  | dev
  | latest
deriving DecidableEq, Repr

def ImageTag.str : ImageTag → String
  | .dev => "dev"
  | .latest => "latest"

/-- `getValidImageName(nameHint)`: strip characters outside the class,
lowercase the remainder, and fall back to `"image"` when empty. -/
def getValidImageName (nameHint : String) : String :=
  let result := String.mk ((nameHint.data.filter isImageNameChar).map jsToLowerChar)
  if result.data.isEmpty then "image" else result

/-- `getValidImageNameWithTag(nameHint, tag)`. -/
def getValidImageNameWithTag (nameHint : String) (tag : ImageTag) : String :=
  getValidImageName nameHint ++ ":" ++ tag.str

/-- `getDefaultImageName(nameHint, tag?)`: default tag is `latest`. -/
def getDefaultImageName (nameHint : String) (tag : Option ImageTag) : String :=
  getValidImageNameWithTag nameHint (tag.getD .latest)

/-- Lowercase ASCII alphanumeric characters, for stating the sanitization
property. -/
def isLowerAlnumChar (c : Char) : Bool :=
  "abcdefghijklmnopqrstuvwxyz0123456789".data.contains c

theorem jsToLowerChar_mem :
    ∀ c, isImageNameChar c = true → isLowerAlnumChar (jsToLowerChar c) = true := by
  have h : imageNameChars.all (fun c => isLowerAlnumChar (jsToLowerChar c)) = true := by
    decide
  intro c hc
  exact List.all_eq_true.mp h c (by simpa [isImageNameChar] using hc)

/-- C9: `getDefaultImageName` strips every non-alphanumeric character from the
name hint, lowercases the remainder, and appends `":latest"` when no tag is
supplied; for every hint the part before the colon contains only lowercase
alphanumerics; hint `"My App!"` yields `"myapp:latest"`; any hint that is
empty after stripping yields `"image:latest"`. -/
theorem c9_default_image_name_sanitization :
    (∀ hint, (getValidImageName hint).data.all isLowerAlnumChar = true) ∧
    (∀ hint, getDefaultImageName hint none = getValidImageName hint ++ ":latest") ∧
    getDefaultImageName "My App!" none = "myapp:latest" ∧
    (∀ hint, hint.data.filter isImageNameChar = [] →
      getDefaultImageName hint none = "image:latest") := by
  refine ⟨?_, ?_, ?_, ?_⟩
  · intro hint
    rw [getValidImageName]
    split
    · decide
    · rw [List.all_eq_true]
      intro c hc
      simp only [List.mem_map] at hc
      obtain ⟨d, hd, rfl⟩ := hc
      exact jsToLowerChar_mem d (List.of_mem_filter hd)
  · intro hint
    show getValidImageName hint ++ ":" ++ "latest" = getValidImageName hint ++ ":latest"
    rw [String.append_assoc]
    rfl
  · decide
  · intro hint h
    show getValidImageName hint ++ ":" ++ "latest" = "image:latest"
    rw [getValidImageName, h]
    rfl

theorem c9_default_image_name_sanitization_witness :
    (getValidImageName "My--App2!").data.all isLowerAlnumChar = true ∧
    getDefaultImageName "" none = "image:latest" :=
  ⟨c9_default_image_name_sanitization.1 "My--App2!",
   c9_default_image_name_sanitization.2.2.2 "" (by decide)⟩

/-! ## Task nodes and the dependency resolver (`TaskHelper.ts`) -/

/-- `dependsOn` of a tasks.json task: either an ordered list of labels, or a
single type reference (an object whose `type` field is read; that field may
itself be absent). -/
inductive DependsOn
  | labels (ls : List String)
  | typeRef (ty : Option String)
deriving DecidableEq, Repr

/-- The fields of `TaskDefinitionBase` / `DebugConfigurationBase` that
`recursiveFindTaskByType` and its helpers read: `preLaunchTask` (debug
configurations), `type`, `label` and `dependsOn` (tasks). Absent fields are
`none`. -/
structure TaskNode where
  label : Option String := none
  type : Option String := none
  preLaunchTask : Option String := none
  dependsOn : Option DependsOn := none
deriving DecidableEq, Repr

/-- JavaScript truthiness of a possibly-absent string: `undefined` and `""`
are falsy. -/
def truthyStr : Option String → Bool
  | some s => s != ""
  | none => false

/-- `findTaskByLabel(allTasks, label)`: first task whose `label` strictly
equals the sought label (a task without a label never matches a string). -/
def findTaskByLabel (allTasks : List TaskNode) (label : String) : Option TaskNode :=
  allTasks.find? (fun t => t.label == some label)

/-- `findTaskByType(allTasks, type)`: first task whose `type` strictly equals
the sought type. The call site passes `node.dependsOn.type`, which may be
`undefined`, and `===` then matches exactly the tasks with no `type`; hence
the `Option String` parameter. -/
def findTaskByType (allTasks : List TaskNode) (ty : Option String) : Option TaskNode :=
  allTasks.find? (fun t => t.type == ty)

/-- Result of the fuel-indexed resolver: `found`/`notFound` are the source's
answers (a task / `undefined`); `outOfFuel` marks an execution exceeding the
given budget of recursive calls. -/
inductive FindResult
  | found (t : TaskNode)
  | notFound
  | outOfFuel
deriving DecidableEq, Repr

mutual

/-- `recursiveFindTaskByType(allTasks, type, node)`. The source recursion
carries no depth bound or visited set, so the embedding counts recursive
calls with a fuel parameter; any result other than `outOfFuel` is the
source's answer. -/
def recursiveFindTaskByType (allTasks : List TaskNode) (ty : String) :
    Nat → Option TaskNode → FindResult
  | 0, _ => .outOfFuel
  | _ + 1, none => .notFound
  | fuel + 1, some node =>
    if truthyStr node.preLaunchTask then
      recursiveFindTaskByType allTasks ty fuel
        (findTaskByLabel allTasks (node.preLaunchTask.getD ""))
    else if node.type == some ty then
      .found node
    else
      match node.dependsOn with
      | some (.labels ls) => findFirstInLabels allTasks ty fuel ls
      | some (.typeRef nextTy) =>
        recursiveFindTaskByType allTasks ty fuel (findTaskByType allTasks nextTy)
      | none => .notFound
termination_by fuel _x => (fuel, 0)

/-- The `for (const label of node.dependsOn)` loop of
`recursiveFindTaskByType`: resolve each label in order, recurse into each,
first successful match wins. -/
def findFirstInLabels (allTasks : List TaskNode) (ty : String) (fuel : Nat) :
    List String → FindResult
  | [] => .notFound
  | l :: rest =>
    match recursiveFindTaskByType allTasks ty fuel (findTaskByLabel allTasks l) with
    | .found t => .found t
    | .outOfFuel => .outOfFuel
    | .notFound => findFirstInLabels allTasks ty fuel rest
termination_by ls => (fuel, ls.length + 1)

end

/-- `getAssociatedDockerRunTask(debugConfiguration)`: resolve from the debug
configuration over the workspace task list toward a `docker-run` task. -/
def getAssociatedDockerRunTask (allTasks : List TaskNode) (fuel : Nat)
    (debugConfiguration : TaskNode) : FindResult :=
  recursiveFindTaskByType allTasks "docker-run" fuel (some debugConfiguration)

/-- `getAssociatedDockerBuildTask(runTask)`: re-find the run task's
definition by label (the Task API's `runTask.name` equals the tasks.json
`label`), then resolve toward a `docker-build` task. -/
def getAssociatedDockerBuildTask (allTasks : List TaskNode) (fuel : Nat)
    (runTaskName : String) : FindResult :=
  recursiveFindTaskByType allTasks "docker-build" fuel
    (findTaskByLabel allTasks runTaskName)

/-- The malformed configuration of the claim: two tasks whose `dependsOn`
lists reference each other's labels. -/
def taskCycleA : TaskNode :=
  { label := some "A", dependsOn := some (.labels ["B"]) }

def taskCycleB : TaskNode :=
  { label := some "B", dependsOn := some (.labels ["A"]) }

def cyclicTasks : List TaskNode := [taskCycleA, taskCycleB]

/-- C1 (code bug): on the cyclic task graph `[A(dependsOn=[B.label]),
B(dependsOn=[A.label])]`, `recursiveFindTaskByType` exhausts every finite
budget of recursive calls, from either start node: the source recursion,
which carries no depth bound or visited set, never returns `NotFound` —
it diverges, contrary to the specified finite-time `NotFound`. -/
theorem c1_cycle_diverges :
    ∀ fuel,
      recursiveFindTaskByType cyclicTasks "docker-run" fuel (some taskCycleA) =
        FindResult.outOfFuel ∧
      recursiveFindTaskByType cyclicTasks "docker-run" fuel (some taskCycleB) =
        FindResult.outOfFuel := by
  have hB : findTaskByLabel cyclicTasks "B" = some taskCycleB := by decide
  have hA : findTaskByLabel cyclicTasks "A" = some taskCycleA := by decide
  intro fuel
  induction fuel with
  | zero => exact ⟨by rw [recursiveFindTaskByType], by rw [recursiveFindTaskByType]⟩
  | succ n ih =>
    refine ⟨?_, ?_⟩
    · rw [recursiveFindTaskByType]
      simp only [taskCycleA, truthyStr]
      rw [findFirstInLabels, hB, ih.2]
      simp
    · rw [recursiveFindTaskByType]
      simp only [taskCycleB, truthyStr]
      rw [findFirstInLabels, hA, ih.1]
      simp

/-- The well-formed graph of the claim: a build task `A`, a run task `B`
depending on `A`, and a debug configuration whose `preLaunchTask` is `B`. -/
def taskBuildA : TaskNode :=
  { label := some "A", type := some "docker-build" }

def taskRunB : TaskNode :=
  { label := some "B", type := some "docker-run", dependsOn := some (.labels ["A"]) }

def buildRunTasks : List TaskNode := [taskBuildA, taskRunB]

def debugCfgPreLaunchB : TaskNode := { preLaunchTask := some "B" }

/-- C6: `recursiveFindTaskByType` follows a `preLaunchTask` label first when
one is present (recursing from the resolved task instead of examining the
node), returns the node when its `type` equals the sought type, and resolves
a `dependsOn` label list in order with the first successful recursive match
winning; consequently, on tasks `[A(type=docker-build),
B(type=docker-run, dependsOn=[A.label])]` and a debug configuration with
`preLaunchTask=B.label`, the associated run task is `B` and the associated
build task of `B` is `A`. -/
theorem c6_resolver_structure :
    (∀ allTasks ty fuel node l, node.preLaunchTask = some l → l ≠ "" →
      recursiveFindTaskByType allTasks ty (fuel + 1) (some node) =
        recursiveFindTaskByType allTasks ty fuel (findTaskByLabel allTasks l)) ∧
    (∀ allTasks ty fuel node, truthyStr node.preLaunchTask = false →
      node.type = some ty →
      recursiveFindTaskByType allTasks ty (fuel + 1) (some node) =
        FindResult.found node) ∧
    (∀ allTasks ty fuel l rest t,
      recursiveFindTaskByType allTasks ty fuel (findTaskByLabel allTasks l) =
        FindResult.found t →
      findFirstInLabels allTasks ty fuel (l :: rest) = FindResult.found t) ∧
    (∀ allTasks ty fuel l rest,
      recursiveFindTaskByType allTasks ty fuel (findTaskByLabel allTasks l) =
        FindResult.notFound →
      findFirstInLabels allTasks ty fuel (l :: rest) =
        findFirstInLabels allTasks ty fuel rest) ∧
    (∀ allTasks ty fuel node ls, truthyStr node.preLaunchTask = false →
      (node.type == some ty) = false → node.dependsOn = some (.labels ls) →
      recursiveFindTaskByType allTasks ty (fuel + 1) (some node) =
        findFirstInLabels allTasks ty fuel ls) ∧
    (∀ fuel,
      getAssociatedDockerRunTask buildRunTasks (fuel + 2) debugCfgPreLaunchB =
        FindResult.found taskRunB ∧
      getAssociatedDockerBuildTask buildRunTasks (fuel + 2) "B" =
        FindResult.found taskBuildA) := by
  have hfindA : findTaskByLabel buildRunTasks "A" = some taskBuildA := by decide
  have hfindB : findTaskByLabel buildRunTasks "B" = some taskRunB := by decide
  refine ⟨?_, ?_, ?_, ?_, ?_, ?_⟩
  · intro allTasks ty fuel node l h hne
    rw [recursiveFindTaskByType]
    simp [h, truthyStr, hne]
  · intro allTasks ty fuel node h1 h2
    rw [recursiveFindTaskByType]
    simp [h1, h2]
  · intro allTasks ty fuel l rest t h
    rw [findFirstInLabels, h]
  · intro allTasks ty fuel l rest h
    rw [findFirstInLabels, h]
  · intro allTasks ty fuel node ls h1 h2 h3
    rw [recursiveFindTaskByType]
    simp [h1, h2, h3]
  · intro fuel
    refine ⟨?_, ?_⟩
    · rw [getAssociatedDockerRunTask, recursiveFindTaskByType]
      simp only [debugCfgPreLaunchB, truthyStr]
      rw [if_pos (by decide), Option.getD_some, hfindB, recursiveFindTaskByType]
      simp [taskRunB, truthyStr]
    · rw [getAssociatedDockerBuildTask, hfindB, recursiveFindTaskByType]
      simp only [taskRunB, truthyStr]
      rw [findFirstInLabels, hfindA, recursiveFindTaskByType]
      simp [taskBuildA, truthyStr]

theorem c6_resolver_structure_witness :
    recursiveFindTaskByType buildRunTasks "docker-run" 5 (some debugCfgPreLaunchB) =
      recursiveFindTaskByType buildRunTasks "docker-run" 4
        (findTaskByLabel buildRunTasks "B") ∧
    getAssociatedDockerRunTask buildRunTasks 2 debugCfgPreLaunchB =
      FindResult.found taskRunB ∧
    getAssociatedDockerBuildTask buildRunTasks 2 "B" = FindResult.found taskBuildA :=
  ⟨c6_resolver_structure.1 buildRunTasks "docker-run" 4 debugCfgPreLaunchB "B" rfl
      (by decide),
   (c6_resolver_structure.2.2.2.2.2 0).1,
   (c6_resolver_structure.2.2.2.2.2 0).2⟩

/-! ## Docker build/run options and task definitions
(`DockerBuildTaskProvider.ts` / `DockerRunTaskProvider`) -/

structure DockerBuildOptions where
  args : Option (List (String × String)) := none
  context : Option String := none
  dockerfile : Option String := none
  labels : Option (List (String × String)) := none
  tag : Option String := none
  target : Option String := none
  pull : Option Bool := none
deriving DecidableEq, Repr

structure DockerContainerPort where
  hostPort : Option Nat := none
  containerPort : Nat
  protocol : Option String := none
deriving DecidableEq, Repr

structure DockerContainerVolume where
  localPath : String
  containerPath : String
  permissions : Option String := none
deriving DecidableEq, Repr

structure DockerRunOptions where
  command : Option (List String) := none
  containerName : Option String := none
  entrypoint : Option String := none
  env : Option (List (String × String)) := none
  envFiles : Option (List String) := none
  extraHosts : Option (List (String × String)) := none
  image : Option String := none
  labels : Option (List (String × String)) := none
  network : Option String := none
  networkAlias : Option String := none
  os : Option String := none
  ports : Option (List DockerContainerPort) := none
  portsPublishAll : Option Bool := none
  volumes : Option (List DockerContainerVolume) := none
deriving DecidableEq, Repr

/-- `DockerBuildTaskDefinition`. The `netCore`/`node` runtime-options bags are
opaque to every function embedded here (only their presence is read), hence
`Option Unit`. -/
structure DockerBuildTaskDefinition where
  label : Option String := none
  dependsOn : Option (List String) := none
  dockerBuild : Option DockerBuildOptions := none
  netCore : Option Unit := none
  node : Option Unit := none
  platform : Option String := none
deriving DecidableEq, Repr

/-- `DockerRunTaskDefinition`, as for the build variant. -/
structure DockerRunTaskDefinition where
  label : Option String := none
  dependsOn : Option (List String) := none
  dockerRun : Option DockerRunOptions := none
  netCore : Option Unit := none
  node : Option Unit := none
  platform : Option String := none
deriving DecidableEq, Repr

/-- The single field of `DockerRunTaskContext` that `inferImageName` reads
(`context.buildDefinition`); the remaining fields (folder, shell, telemetry,
cancellation) belong to external collaborators and are never read here. -/
structure DockerRunTaskContext where
  buildDefinition : Option DockerBuildTaskDefinition := none
deriving DecidableEq, Repr

/-- Value of an optional string under the JavaScript `a || b` chain:
`none` when absent or empty (falsy), the string itself otherwise. -/
def truthyOrNone : Option String → Option String
  | some s => if s = "" then none else some s
  | none => none

/-- `inferImageName(runOptions, context, defaultNameHint, defaultTag?)`: the
source's `(runOptions && runOptions.dockerRun && runOptions.dockerRun.image)
|| (context && context.buildDefinition && context.buildDefinition.dockerBuild
&& context.buildDefinition.dockerBuild.tag) ||
getDefaultImageName(defaultNameHint, defaultTag)`. -/
def inferImageName (runOptions : Option DockerRunTaskDefinition)
    (context : Option DockerRunTaskContext) (defaultNameHint : String)
    (defaultTag : Option ImageTag) : String :=
  match truthyOrNone ((runOptions.bind (·.dockerRun)).bind (·.image)) with
  | some img => img
  | none =>
    match truthyOrNone
        (((context.bind (·.buildDefinition)).bind (·.dockerBuild)).bind (·.tag)) with
    | some t => t
    | none => getDefaultImageName defaultNameHint defaultTag

/-- Run task definition whose run options carry only an `image`. -/
def runDefImage (img : String) : DockerRunTaskDefinition :=
  { dockerRun := some { image := some img } }

/-- Run task context bound to a build definition carrying only a `tag`. -/
def ctxBuildTag (t : String) : DockerRunTaskContext :=
  { buildDefinition := some { dockerBuild := some { tag := some t } } }

/-- C5: `inferImageName` returns the run options' image when set, else the
bound build definition's tag when set, else the computed default name from
the hint; on image `"x"`, tag `"y"`, hint `"z"` it returns `"x"`; without
the image it returns `"y"`; with neither it returns
`getDefaultImageName "z"`. -/
theorem c5_infer_image_name :
    (∀ ro ctx hint tag s,
      ((ro.bind fun rd => rd.dockerRun).bind fun o => o.image) = some s → s ≠ "" →
      inferImageName ro ctx hint tag = s) ∧
    (∀ ro ctx hint tag t,
      truthyOrNone ((ro.bind fun rd => rd.dockerRun).bind fun o => o.image) = none →
      (((ctx.bind fun c => c.buildDefinition).bind fun bd => bd.dockerBuild).bind
        fun o => o.tag) = some t → t ≠ "" →
      inferImageName ro ctx hint tag = t) ∧
    (∀ ro ctx hint tag,
      truthyOrNone ((ro.bind fun rd => rd.dockerRun).bind fun o => o.image) = none →
      truthyOrNone (((ctx.bind fun c => c.buildDefinition).bind
        fun bd => bd.dockerBuild).bind fun o => o.tag) = none →
      inferImageName ro ctx hint tag = getDefaultImageName hint tag) ∧
    inferImageName (some (runDefImage "x")) (some (ctxBuildTag "y")) "z" none = "x" ∧
    inferImageName (some { dockerRun := some {} }) (some (ctxBuildTag "y")) "z" none
      = "y" ∧
    inferImageName (some { dockerRun := some {} })
      (some { buildDefinition := some { dockerBuild := some {} } }) "z" none
      = getDefaultImageName "z" none := by
  refine ⟨?_, ?_, ?_, by decide, by decide, by decide⟩
  · intro ro ctx hint tag s h hne
    rw [inferImageName, h]
    simp [truthyOrNone, hne]
  · intro ro ctx hint tag t h1 h2 hne
    rw [inferImageName, h1, h2]
    simp [truthyOrNone, hne]
  · intro ro ctx hint tag h1 h2
    rw [inferImageName, h1, h2]

theorem c5_infer_image_name_witness :
    inferImageName (some (runDefImage "x")) none "z" none = "x" :=
  c5_infer_image_name.1 (some (runDefImage "x")) none "z" none "x" rfl (by decide)

/-! ## `addTask` (`TaskHelper.ts`) -/

/-- Outcome of `addTask`: the workspace `tasks` list afterwards, whether
`workspaceTasks.update` was called at all, and the returned boolean. -/
structure AddTaskOutcome where
  tasks : List TaskNode
  wroteConfig : Bool
  result : Bool
deriving DecidableEq, Repr

/-- `addTask(newTask, overwrite)` over the workspace `tasks` list: find the
first task whose `label` strictly equals `newTask.label`; replace it only
when `overwrite` is truthy (of `boolean | undefined`, only `true` is),
otherwise return `false` without writing; append when no label matches. -/
def addTask (allTasks : List TaskNode) (newTask : TaskNode)
    (overwrite : Option Bool) : AddTaskOutcome :=
  match allTasks.findIdx? (fun t => t.label == newTask.label) with
  | some i =>
    if overwrite == some true then
      { tasks := allTasks.set i newTask, wroteConfig := true, result := true }
    else
      { tasks := allTasks, wroteConfig := false, result := false }
  | none =>
    { tasks := allTasks ++ [newTask], wroteConfig := true, result := true }

/-- C8: `addTask` is a label-keyed upsert: with a matching label and
`overwrite=true` the existing entry is replaced and `true` returned; with
`overwrite` false or undefined it returns `false` and performs no write,
leaving the list unchanged; with no matching label the task is appended at
the end and `true` returned. -/
theorem c8_addTask_upsert :
    (∀ ts nt i, ts.findIdx? (fun t => t.label == nt.label) = some i →
      addTask ts nt (some true) =
        { tasks := ts.set i nt, wroteConfig := true, result := true }) ∧
    (∀ ts nt ov i, ts.findIdx? (fun t => t.label == nt.label) = some i →
      (ov = some false ∨ ov = none) →
      addTask ts nt ov = { tasks := ts, wroteConfig := false, result := false }) ∧
    (∀ ts nt ov, ts.findIdx? (fun t => t.label == nt.label) = none →
      addTask ts nt ov =
        { tasks := ts ++ [nt], wroteConfig := true, result := true }) := by
  refine ⟨?_, ?_, ?_⟩
  · intro ts nt i h
    rw [addTask, h]
    simp
  · intro ts nt ov i h hov
    rw [addTask, h]
    rcases hov with rfl | rfl <;> simp
  · intro ts nt ov h
    rw [addTask, h]

theorem c8_addTask_upsert_witness :
    addTask [taskCycleA] taskCycleA (some true) =
      { tasks := [taskCycleA], wroteConfig := true, result := true } ∧
    addTask [taskCycleA] taskCycleA none =
      { tasks := [taskCycleA], wroteConfig := false, result := false } ∧
    addTask [] taskCycleA (some false) =
      { tasks := [taskCycleA], wroteConfig := true, result := true } :=
  ⟨c8_addTask_upsert.1 [taskCycleA] taskCycleA 0 (by decide),
   c8_addTask_upsert.2.1 [taskCycleA] taskCycleA none 0 (by decide) (Or.inr rfl),
   c8_addTask_upsert.2.2 [] taskCycleA (some false) (by decide)⟩

/-! ## Debug configuration provider (`DockerDebugConfigurationProvider.ts`) -/

inductive DebugPlatform
  | netCore
  | node
  | unknown
deriving DecidableEq, Repr

/-- The fields of `DockerDebugConfiguration` read by the provider: the
`platform` tag as authored (an arbitrary string, possibly absent), the
presence of the `netCore`/`node` debug-options bags (their contents are
never read here), and the two transient session fields. -/
structure DockerDebugConfiguration where
  platform : Option String := none
  netCore : Option Unit := none
  node : Option Unit := none
  removeContainerAfterDebug : Option Bool := none
  _containerNameToKill : Option String := none
deriving DecidableEq, Repr

/-- `DockerDebugConfigurationProvider.determineDebugPlatform`: the `netCore`
branch is tested first (`platform === 'netCore' || netCore !== undefined`),
then the `node` branch, else `unknown`. Pure and total by construction. -/
def determineDebugPlatform (debugConfiguration : DockerDebugConfiguration) :
    DebugPlatform :=
  if (debugConfiguration.platform == some "netCore") ||
      debugConfiguration.netCore.isSome then
    DebugPlatform.netCore
  else if (debugConfiguration.platform == some "node") ||
      debugConfiguration.node.isSome then
    DebugPlatform.node
  else
    DebugPlatform.unknown

/-- A configuration with an explicit `'node'` platform tag and a conflicting
`netCore` options bag. -/
def cfgNodeTagNetCoreBag : DockerDebugConfiguration :=
  { platform := some "node", netCore := some () }

/-- C2 (counterexample): with platform tag `'node'` and the `netCore` options
bag present, the classifier returns `netCore`, not `node` — the explicit tag
does NOT win over the conflicting bag, because the `netCore` branch is
tested first. -/
theorem c2_tag_does_not_win :
    cfgNodeTagNetCoreBag.platform = some "node" ∧
    cfgNodeTagNetCoreBag.netCore.isSome = true ∧
    determineDebugPlatform cfgNodeTagNetCoreBag = DebugPlatform.netCore ∧
    determineDebugPlatform cfgNodeTagNetCoreBag ≠ DebugPlatform.node := by
  decide

/-- C2 (amended): `determineDebugPlatform` is pure and total; it returns
`netCore` iff the tag is `'netCore'` or the `netCore` bag is present (this
branch is tested first, so a present `netCore` bag wins over a conflicting
`'node'` tag); otherwise `node` iff the tag is `'node'` or the `node` bag is
present; otherwise `unknown` — in particular `unknown` is returned exactly
when no tag matches and no bag is present. -/
theorem c2_determine_debug_platform :
    (∀ c, determineDebugPlatform c = DebugPlatform.netCore ↔
      (c.platform = some "netCore" ∨ c.netCore.isSome = true)) ∧
    (∀ c, determineDebugPlatform c = DebugPlatform.node ↔
      (¬(c.platform = some "netCore" ∨ c.netCore.isSome = true) ∧
        (c.platform = some "node" ∨ c.node.isSome = true))) ∧
    (∀ c, determineDebugPlatform c = DebugPlatform.unknown ↔
      (¬(c.platform = some "netCore" ∨ c.netCore.isSome = true) ∧
        ¬(c.platform = some "node" ∨ c.node.isSome = true))) := by
  refine ⟨?_, ?_, ?_⟩ <;> intro c <;> rw [determineDebugPlatform] <;>
    split_ifs with h1 h2 <;> simp_all

theorem c2_determine_debug_platform_witness :
    determineDebugPlatform ({ platform := some "netCore" } :
      DockerDebugConfiguration) = DebugPlatform.netCore :=
  (c2_determine_debug_platform.1 _).mpr (Or.inl rfl)

/-! ## Session cleanup registration and the termination observer
(`registerRemoveContainerAfterDebugging`) -/

/-- The registration guard: `removeContainerAfterDebug` undefined or truthy
(of `boolean | undefined`, only `true` is truthy), and a truthy
`_containerNameToKill`. -/
def shouldRegisterCleanup (c : DockerDebugConfiguration) : Bool :=
  ((c.removeContainerAfterDebug == none) ||
    (c.removeContainerAfterDebug == some true)) &&
    truthyStr c._containerNameToKill

/-- `registerRemoveContainerAfterDebugging(debugConfiguration)`. The first
component is the configuration as returned to the caller (reflecting the
in-place `debugConfiguration.removeContainerAfterDebug = true`); the second
counts the `onDidTerminateDebugSession` observers registered by this call
(the source registers exactly one inside the guard, none otherwise; an
absent configuration — cancelled debugging — returns immediately). -/
def registerRemoveContainerAfterDebugging
    (debugConfiguration : Option DockerDebugConfiguration) :
    Option DockerDebugConfiguration × Nat :=
  match debugConfiguration with
  | none => (none, 0)
  | some cfg =>
    if shouldRegisterCleanup cfg then
      (some { cfg with removeContainerAfterDebug := some true }, 1)
    else
      (some cfg, 0)

/-- A forced `dockerClient.removeContainer(name, { force: true })` call. -/
structure RemoveContainerCall where
  name : String
  force : Bool
deriving DecidableEq, Repr

/-- The observer's match condition on a termination event `e`:
`session.configuration.removeContainerAfterDebug` truthy, its
`_containerNameToKill` truthy, and equal to the watched configuration's
`_containerNameToKill`. -/
def observerMatches (watched : String) (e : DockerDebugConfiguration) : Bool :=
  (e.removeContainerAfterDebug == some true) &&
    truthyStr e._containerNameToKill &&
    (e._containerNameToKill == some watched)

/-- One dispatch of the registered observer. `registered` is whether the
handler is still subscribed (`disposable.dispose()` unsubscribes, and a
disposed handler no longer fires); `removalSucceeds` is whether the forced
`removeContainer` call succeeds or throws. Returns the new registration
state and the removal call issued, if any: on a match the source disposes in
the `try` on success and in the `catch` on failure, so both branches
unregister. -/
def observerStep (watched : String) (removalSucceeds : Bool) (registered : Bool)
    (e : DockerDebugConfiguration) : Bool × Option RemoveContainerCall :=
  if registered = false then
    (false, none)
  else if observerMatches watched e then
    if removalSucceeds then
      (false, some { name := watched, force := true })
    else
      (false, some { name := watched, force := true })
  else
    (true, none)

/-- An event whose container name equals the watched one but whose
configuration carries `removeContainerAfterDebug = false`. -/
def cfgMatchingNameNoRemove : DockerDebugConfiguration :=
  { removeContainerAfterDebug := some false,
    _containerNameToKill := some "watched-container" }

/-- C3 (counterexample): a termination event whose configuration's container
name equals the watched one, but whose `removeContainerAfterDebug` is
`false`: the observer issues no removal and stays registered, refuting
"on a matching event it issues a forced removeContainer call and
unregisters itself" when matching is read as name equality alone. -/
theorem c3_matching_name_alone_does_not_fire :
    cfgMatchingNameNoRemove._containerNameToKill = some "watched-container" ∧
    observerStep "watched-container" true true cfgMatchingNameNoRemove =
      (true, none) := by
  decide

/-- C3 (amended): after a successful resolution whose configuration carries a
non-empty `_containerNameToKill` and `removeContainerAfterDebug` true or
unset, exactly one termination observer is registered. On an event whose
container name differs from the watched one — or that fails the full match
(truthy `removeContainerAfterDebug`, truthy container name, name equal to
the watched one) — the observer does nothing and remains registered; on a
fully matching event it issues a forced `removeContainer` and unregisters
itself whether the removal succeeds or fails; once unregistered it never
acts again, so it handles at most one event. -/
theorem c3_observer_lifecycle :
    (∀ cfg, truthyStr cfg._containerNameToKill = true →
      (cfg.removeContainerAfterDebug = none ∨
        cfg.removeContainerAfterDebug = some true) →
      (registerRemoveContainerAfterDebugging (some cfg)).2 = 1) ∧
    (∀ w succ e, (e._containerNameToKill == some w) = false →
      observerStep w succ true e = (true, none)) ∧
    (∀ w succ e, observerMatches w e = false →
      observerStep w succ true e = (true, none)) ∧
    (∀ w succ e, observerMatches w e = true →
      observerStep w succ true e = (false, some { name := w, force := true })) ∧
    (∀ w succ e, observerStep w succ false e = (false, none)) := by
  refine ⟨?_, ?_, ?_, ?_, ?_⟩
  · intro cfg h1 h2
    rw [registerRemoveContainerAfterDebugging]
    have : shouldRegisterCleanup cfg = true := by
      rcases h2 with h2 | h2 <;> simp [shouldRegisterCleanup, h2, h1]
    rw [this]
    simp
  · intro w succ e h
    have : observerMatches w e = false := by
      simp [observerMatches, h]
    rw [observerStep, if_neg (by simp), this]
    simp
  · intro w succ e h
    rw [observerStep, if_neg (by simp), h]
    simp
  · intro w succ e h
    rw [observerStep, if_neg (by simp), h]
    cases succ <;> simp
  · intro w succ e
    rw [observerStep, if_pos rfl]

theorem c3_observer_lifecycle_witness :
    (registerRemoveContainerAfterDebugging
      (some { _containerNameToKill := some "c1" })).2 = 1 ∧
    observerStep "c1" true true
        { removeContainerAfterDebug := some true,
          _containerNameToKill := some "c2" } = (true, none) ∧
    observerStep "c1" false true
        { removeContainerAfterDebug := some true,
          _containerNameToKill := some "c1" } =
      (false, some { name := "c1", force := true }) :=
  ⟨c3_observer_lifecycle.1 { _containerNameToKill := some "c1" } (by decide)
      (Or.inl rfl),
   c3_observer_lifecycle.2.1 "c1" true
      { removeContainerAfterDebug := some true,
        _containerNameToKill := some "c2" } (by decide),
   c3_observer_lifecycle.2.2.2.1 "c1" false
      { removeContainerAfterDebug := some true,
        _containerNameToKill := some "c1" } (by decide)⟩

/-- C10: if resolution succeeds with a configuration carrying a non-empty
`_containerNameToKill` while `removeContainerAfterDebug` is undefined, the
configuration returned to the caller has `removeContainerAfterDebug = true`:
the default is materialized onto the resolved object before the session
starts. -/
theorem c10_remove_container_default_materialized :
    ∀ cfg, truthyStr cfg._containerNameToKill = true →
      cfg.removeContainerAfterDebug = none →
      (registerRemoveContainerAfterDebugging (some cfg)).1 =
        some { cfg with removeContainerAfterDebug := some true } := by
  intro cfg h1 h2
  rw [registerRemoveContainerAfterDebugging]
  have : shouldRegisterCleanup cfg = true := by
    simp [shouldRegisterCleanup, h1, h2]
  rw [this]
  simp

theorem c10_remove_container_default_materialized_witness :
    (registerRemoveContainerAfterDebugging
      (some { _containerNameToKill := some "c9z" })).1 =
      some { _containerNameToKill := some "c9z",
             removeContainerAfterDebug := some true } :=
  c10_remove_container_default_materialized
    { _containerNameToKill := some "c9z" } (by decide) rfl

/-! ## Command-line builder and `DockerRunTaskProvider.resolveCommandLine` -/

/-- Modelled from the spec: the fluent `CommandLineBuilder`
(`utils/commandLineBuilder.ts` is not among the sources examined) produces an
ordered token sequence, each call appending zero or more tokens conditionally
and never reordering previously appended ones (spec §4.1). Each item records
which kind of builder call emitted it. -/
inductive CommandLineItem
  | base (token : String)
  | flag (name : String)
  | named (name : String) (value : String)
  | keyValue (flag : String) (key : String) (value : String)
  | arrayArg (flag : String) (formatted : String)
  | quoted (value : String)
  | arg (token : String)
deriving DecidableEq, Repr

/-- Modelled from the spec: `withFlagArg(flag, present)` emits `flag` iff
`present` is true. -/
def withFlagArg (acc : List CommandLineItem) (flag : String) (present : Bool) :
    List CommandLineItem :=
  if present then acc ++ [CommandLineItem.flag flag] else acc

/-- Modelled from the spec: `withNamedArg(name, value)` emits `name value`
iff `value` is non-empty. -/
def withNamedArg (acc : List CommandLineItem) (name : String)
    (value : Option String) : List CommandLineItem :=
  match truthyOrNone value with
  | some v => acc ++ [CommandLineItem.named name v]
  | none => acc

/-- Modelled from the spec: `withKeyValueArgs(flag, mapping)` emits
`flag "k=v"` once per entry in insertion order; an absent mapping emits
nothing. -/
def withKeyValueArgs (acc : List CommandLineItem) (flag : String)
    (pairs : Option (List (String × String))) : List CommandLineItem :=
  match pairs with
  | some ps => acc ++ ps.map (fun p => CommandLineItem.keyValue flag p.1 p.2)
  | none => acc

/-- Modelled from the spec: `withArrayArgs(flag, list, formatter)` emits
`flag formatted(item)` once per entry in list order; an absent list emits
nothing. -/
def withArrayArgs {α : Type} (acc : List CommandLineItem) (flag : String)
    (values : Option (List α)) (fmt : α → String) : List CommandLineItem :=
  match values with
  | some vs => acc ++ vs.map (fun v => CommandLineItem.arrayArg flag (fmt v))
  | none => acc

/-- Modelled from the spec: `withQuotedArg(value)` emits `value` iff
non-empty. -/
def withQuotedArg (acc : List CommandLineItem) (value : Option String) :
    List CommandLineItem :=
  match truthyOrNone value with
  | some v => acc ++ [CommandLineItem.quoted v]
  | none => acc

/-- Modelled from the spec: `withArgs(value)` appends the given tokens
as-is. -/
def withArgs (acc : List CommandLineItem) (value : Option (List String)) :
    List CommandLineItem :=
  match value with
  | some vs => acc ++ vs.map CommandLineItem.arg
  | none => acc

/-- The `-v` formatter of the source:
`${localPath}:${containerPath}${permissions ? ':' + permissions : ''}`. -/
def formatVolume (volume : DockerContainerVolume) : String :=
  volume.localPath ++ ":" ++ volume.containerPath ++
    (match truthyOrNone volume.permissions with
      | some p => ":" ++ p
      | none => "")

/-- The `-p` formatter of the source:
`${hostPort ? hostPort + ':' : ''}${containerPort}${protocol ? '/' + protocol
: ''}`; a `hostPort` of `0` is falsy in JavaScript and is omitted. -/
def formatPort (port : DockerContainerPort) : String :=
  (match port.hostPort with
    | some h => if h = 0 then "" else toString h ++ ":"
    | none => "") ++
  toString port.containerPort ++
  (match truthyOrNone port.protocol with
    | some pr => "/" ++ pr
    | none => "")

/-- The `--add-host` formatter of the source: `${hostname}:${ip}`. -/
def formatExtraHost (extraHost : String × String) : String :=
  extraHost.1 ++ ":" ++ extraHost.2

/-- The value the source passes to `withFlagArg('-P', ...)`:
`runOptions.portsPublishAll || (runOptions.portsPublishAll === undefined &&
(runOptions.ports === undefined || runOptions.ports.length < 1))`. -/
def publishAllPortsFlag (runOptions : DockerRunOptions) : Bool :=
  (runOptions.portsPublishAll == some true) ||
    ((runOptions.portsPublishAll == none) &&
      ((runOptions.ports == none) ||
        decide ((runOptions.ports.getD []).length < 1)))

/-- `DockerRunTaskProvider.resolveCommandLine(runOptions)`: the source's
builder chain, in order. -/
def resolveRunCommandLine (runOptions : DockerRunOptions) :
    List CommandLineItem :=
  let acc := [CommandLineItem.base "docker", CommandLineItem.base "run",
    CommandLineItem.base "-dt"]
  let acc := withFlagArg acc "-P" (publishAllPortsFlag runOptions)
  let acc := withNamedArg acc "--name" runOptions.containerName
  let acc := withNamedArg acc "--network" runOptions.network
  let acc := withNamedArg acc "--network-alias" runOptions.networkAlias
  let acc := withKeyValueArgs acc "-e" runOptions.env
  let acc := withArrayArgs acc "--env-file" runOptions.envFiles (fun s => s)
  let acc := withKeyValueArgs acc "--label" runOptions.labels
  let acc := withArrayArgs acc "-v" runOptions.volumes formatVolume
  let acc := withArrayArgs acc "-p" runOptions.ports formatPort
  let acc := withArrayArgs acc "--add-host" runOptions.extraHosts formatExtraHost
  let acc := withNamedArg acc "--entrypoint" runOptions.entrypoint
  let acc := withQuotedArg acc runOptions.image
  withArgs acc runOptions.command

theorem flag_mem_withNamedArg (f n : String) (v : Option String)
    (acc : List CommandLineItem) :
    (CommandLineItem.flag f ∈ withNamedArg acc n v) ↔
      CommandLineItem.flag f ∈ acc := by
  rcases htv : truthyOrNone v with _ | v' <;> simp [withNamedArg, htv]

theorem flag_mem_withKeyValueArgs (f n : String)
    (ps : Option (List (String × String))) (acc : List CommandLineItem) :
    (CommandLineItem.flag f ∈ withKeyValueArgs acc n ps) ↔
      CommandLineItem.flag f ∈ acc := by
  rcases ps with _ | ps <;> simp [withKeyValueArgs]

theorem flag_mem_withArrayArgs {α : Type} (f n : String) (vs : Option (List α))
    (fmt : α → String) (acc : List CommandLineItem) :
    (CommandLineItem.flag f ∈ withArrayArgs acc n vs fmt) ↔
      CommandLineItem.flag f ∈ acc := by
  rcases vs with _ | vs <;> simp [withArrayArgs]

theorem flag_mem_withQuotedArg (f : String) (v : Option String)
    (acc : List CommandLineItem) :
    (CommandLineItem.flag f ∈ withQuotedArg acc v) ↔
      CommandLineItem.flag f ∈ acc := by
  rcases htv : truthyOrNone v with _ | v' <;> simp [withQuotedArg, htv]

theorem flag_mem_withArgs (f : String) (v : Option (List String))
    (acc : List CommandLineItem) :
    (CommandLineItem.flag f ∈ withArgs acc v) ↔ CommandLineItem.flag f ∈ acc := by
  rcases v with _ | vs <;> simp [withArgs]

theorem flag_mem_withFlagArg (f : String) (b : Bool)
    (acc : List CommandLineItem) :
    (CommandLineItem.flag f ∈ withFlagArg acc f b) ↔
      (CommandLineItem.flag f ∈ acc ∨ b = true) := by
  cases b <;> simp [withFlagArg]

theorem publish_all_mem_iff (runOptions : DockerRunOptions) :
    CommandLineItem.flag "-P" ∈ resolveRunCommandLine runOptions ↔
      (runOptions.portsPublishAll = some true ∨
        (runOptions.portsPublishAll = none ∧
          (runOptions.ports = none ∨ runOptions.ports.getD [] = []))) := by
  rw [resolveRunCommandLine]
  simp only [flag_mem_withArgs, flag_mem_withQuotedArg, flag_mem_withNamedArg,
    flag_mem_withArrayArgs, flag_mem_withKeyValueArgs, flag_mem_withFlagArg]
  simp [publishAllPortsFlag, Nat.lt_one_iff, List.length_eq_zero]

def emptyRunOptions : DockerRunOptions := {}

/-- C4 (counterexample): with `portsPublishAll` absent from the run options
(and no ports given), the `-P` flag IS emitted: absence of the optional
field does not suppress the flag, contrary to the claimed optionality
rule. -/
theorem c4_publish_all_emitted_when_absent :
    emptyRunOptions.portsPublishAll = none ∧
    CommandLineItem.flag "-P" ∈ resolveRunCommandLine emptyRunOptions := by
  refine ⟨rfl, ?_⟩
  rw [publish_all_mem_iff]
  exact Or.inr ⟨rfl, Or.inl rfl⟩

/-- C4 (amended): the `-P` flag is emitted iff `portsPublishAll` is `true`,
or `portsPublishAll` is absent and `ports` is absent or empty (publish-all
is the default when no explicit ports are configured); in particular with
`portsPublishAll = false` it is never emitted. -/
theorem c4_publish_all_flag :
    ∀ runOptions,
      (CommandLineItem.flag "-P" ∈ resolveRunCommandLine runOptions ↔
        (runOptions.portsPublishAll = some true ∨
          (runOptions.portsPublishAll = none ∧
            (runOptions.ports = none ∨ runOptions.ports.getD [] = [])))) ∧
      (runOptions.portsPublishAll = some false →
        CommandLineItem.flag "-P" ∉ resolveRunCommandLine runOptions) := by
  intro runOptions
  refine ⟨publish_all_mem_iff runOptions, fun h => ?_⟩
  rw [publish_all_mem_iff, h]
  simp

theorem c4_publish_all_flag_witness :
    CommandLineItem.flag "-P" ∉
      resolveRunCommandLine { portsPublishAll := some false } :=
  (c4_publish_all_flag { portsPublishAll := some false }).2 rfl

/-! ## Clone-before-mutate in task resolution (`resolveTaskInternal`) -/

/-- Modelled from the spec: `cloneObject` (`utils/cloneObject.ts` is not
among the sources examined) deep-copies its argument — "resolution always
clones before merging". On a heap of definition objects (references are list
indices, allocation appends) it allocates a fresh reference holding an equal
value; `dflt` is only read on a dangling reference. -/
def cloneObject {α : Type} (heap : List α) (r : Nat) (dflt : α) :
    List α × Nat :=
  (heap ++ [heap.getD r dflt], heap.length)

/-- `DockerRunTaskProvider.resolveTaskInternal`, heap-passing: `taskDefinition`
is the reference carried by `task.definition`. The platform helper's resolved
run options (an awaited external call) are a parameter. The two in-place
assignments to `definition.dockerRun` are writes to the clone's reference.
Returns the heap afterwards, the clone's reference, and the definition
reference carried by the returned `Task` — the source constructs it with
`new Task(task.definition, ...)`, the ORIGINAL reference. -/
def resolveRunTaskInternal (heap : List DockerRunTaskDefinition)
    (taskDefinition : Nat) (resolvedOptions : DockerRunOptions) :
    List DockerRunTaskDefinition × Nat × Nat :=
  let cloned := cloneObject heap taskDefinition {}
  let h1 := cloned.1
  let definition := cloned.2
  let d0 := h1.getD definition {}
  let h2 := h1.set definition { d0 with dockerRun := some (d0.dockerRun.getD {}) }
  let d1 := h2.getD definition {}
  let h3 := h2.set definition { d1 with dockerRun := some resolvedOptions }
  (h3, definition, taskDefinition)

/-- `DockerBuildTaskProvider.resolveTaskInternal`, heap-passing, symmetric to
the run variant with `definition.dockerBuild` in place of
`definition.dockerRun`. -/
def resolveBuildTaskInternal (heap : List DockerBuildTaskDefinition)
    (taskDefinition : Nat) (resolvedOptions : DockerBuildOptions) :
    List DockerBuildTaskDefinition × Nat × Nat :=
  let cloned := cloneObject heap taskDefinition {}
  let h1 := cloned.1
  let definition := cloned.2
  let d0 := h1.getD definition {}
  let h2 := h1.set definition { d0 with dockerBuild := some (d0.dockerBuild.getD {}) }
  let d1 := h2.getD definition {}
  let h3 := h2.set definition { d1 with dockerBuild := some resolvedOptions }
  (h3, definition, taskDefinition)

/-- C7: task resolution never mutates the caller's definition: for every
heap and every valid definition reference, both `resolveTaskInternal`
variants leave the object at the input reference unchanged (every field of
the input definition is intact), write only to a freshly allocated clone,
and the returned `Task` carries the original reference. -/
theorem c7_resolution_never_mutates_input :
    (∀ heap r opts, r < heap.length →
      (resolveRunTaskInternal heap r opts).1[r]? = heap[r]? ∧
      (resolveRunTaskInternal heap r opts).2.2 = r ∧
      (resolveRunTaskInternal heap r opts).2.1 ≠ r) ∧
    (∀ heap r opts, r < heap.length →
      (resolveBuildTaskInternal heap r opts).1[r]? = heap[r]? ∧
      (resolveBuildTaskInternal heap r opts).2.2 = r ∧
      (resolveBuildTaskInternal heap r opts).2.1 ≠ r) := by
  constructor
  · intro heap r opts hr
    refine ⟨?_, rfl, ?_⟩
    · show (((heap ++ _).set heap.length _).set heap.length _)[r]? = heap[r]?
      rw [List.getElem?_set_ne (ne_of_gt hr),
        List.getElem?_set_ne (ne_of_gt hr),
        List.getElem?_append_left hr]
    · exact ne_of_gt hr
  · intro heap r opts hr
    refine ⟨?_, rfl, ?_⟩
    · show (((heap ++ _).set heap.length _).set heap.length _)[r]? = heap[r]?
      rw [List.getElem?_set_ne (ne_of_gt hr),
        List.getElem?_set_ne (ne_of_gt hr),
        List.getElem?_append_left hr]
    · exact ne_of_gt hr

theorem c7_resolution_never_mutates_input_witness :
    (resolveRunTaskInternal [{ label := some "run" }] 0 {}).1[0]? =
      [({ label := some "run" } : DockerRunTaskDefinition)][0]? ∧
    (resolveRunTaskInternal [{ label := some "run" }] 0 {}).2.2 = 0 :=
  ⟨(c7_resolution_never_mutates_input.1 [{ label := some "run" }] 0 {}
      (by decide)).1,
   (c7_resolution_never_mutates_input.1 [{ label := some "run" }] 0 {}
      (by decide)).2.1⟩

end VsDocker
